import Mathlib

/-!
Verification of the edge request handler in
`src/packages/website-helper-worker/src/index.ts` (the exported `fetch`
function).  The handler's collaborators live in files outside the provided
source tree (`cors.ts`, `contact-conductor.ts`, `contact-guild.ts`,
`crisp-client.ts`, the `toucan-js` and `@notionhq/client` packages), so they
are modelled as opaque parameters bundled in `Collab`: every theorem below is
quantified over their behaviour, matching the spec's stub-collaborator
framing.  The router's own control flow is translated line by line from
`index.ts`.
-/

namespace WebsiteHelperWorker

/-- A parsed URL as produced by the platform URL constructor
(`new URL(request.url)`).  The router only ever reads `pathname`; the query
string is carried in `search`. -/
structure Url where
  pathname : String
  search : String
  deriving DecidableEq

/-- The inbound HTTP request: method, URL, header list, raw body. -/
structure Request where
  method : String
  url : Url
  headers : List (String × String)
  body : String
  deriving DecidableEq

/-- The worker environment (`env.ts` bindings used by `index.ts`). -/
structure Env where
  SENTRY_DSN : String
  CRISP_TOKEN : String
  CRISP_WEBSITE_ID : String
  NOTION_TOKEN : String
  NOTION_CONDUCTOR_DATABASE_ID : String
  NOTION_CONTACT_US_DATABASE_ID : String
  deriving DecidableEq

/-- A thrown JavaScript value as the catch block observes it through the cast
`(e as Error)`: it either carries a string `message` property (`some m`) or
does not (`none`, e.g. a thrown non-Error value). -/
structure JsErr where
  message : Option String
  deriving DecidableEq

/-- An HTTP response: status (200 when the `Response` constructor gets no
status option), header list, optional body (`none` models a `null` body). -/
structure Response where
  status : Nat
  headers : List (String × String)
  body : Option String
  deriving DecidableEq

/-- The chat-widget client.  `createCrispClient` (in `crisp-client.ts`, not in
the provided tree) is, per the spec, constructed from environment
configuration (API token and site identifier); the router passes it through
opaquely, so it is modelled as the configuration it closes over. -/
structure CrispClient where
  token : String
  websiteId : String
  deriving DecidableEq

/-- The content-management client `new Client({ auth })`: the router only
supplies the auth option and passes the client through opaquely. -/
structure NotionClient where
  auth : String
  deriving DecidableEq

/-- The options object `index.ts` passes to `new Toucan({...})`: the DSN from
the environment and the current request (the platform execution context is
opaque to the router and omitted). -/
structure ToucanOptions where
  dsn : String
  request : Request
  deriving DecidableEq

/-- The argument object of `handleConductorContact` in `index.ts`. -/
structure ConductorContactArgs where
  request : Request
  notion : NotionClient
  notionDatabaseId : String
  deriving DecidableEq

/-- The argument object of `handleContactUs` in `index.ts`. -/
structure ContactUsArgs where
  request : Request
  crisp : CrispClient
  notion : NotionClient
  notionDatabaseId : String
  deriving DecidableEq

/-- The collaborators whose implementations are outside `index.ts`.  A
collaborator call either returns a value or throws (`Except.error`).  The
Toucan constructor may throw (it runs before the try block); its constructed
object is only used for `captureException`, which the log records, so its
payload is `Unit`. -/
structure Collab where
  newToucan : ToucanOptions → Except JsErr Unit
  buildResponseCorsHeaders : List (String × String) → List (String × String)
  handleConductorContact : ConductorContactArgs → Except JsErr Response
  handleContactUs : ContactUsArgs → Except JsErr Response

/-- Observable collaborator interactions inside the try block: whether each
integration client was constructed and how often each route handler ran. -/
structure TryLog where
  crispConstructed : Bool
  notionConstructed : Bool
  conductorCalls : Nat
  contactUsCalls : Nat
  deriving DecidableEq

/-- The full interaction log of one invocation: the try-block interactions
plus every error forwarded to `sentry.captureException`. -/
structure FetchLog extends TryLog where
  captured : List JsErr
  deriving DecidableEq

/-- One escaped character of `JSON.stringify` string encoding. -/
def jsonEscapeChar (c : Char) : String :=
  if c = '\"' then "\\\""
  else if c = '\\' then "\\\\"
  else if c = '\n' then "\\n"
  else if c = '\r' then "\\r"
  else if c = '\t' then "\\t"
  else String.singleton c

/-- `JSON.stringify` escaping of a string value. -/
def jsonEscape (s : String) : String :=
  String.join (s.data.map jsonEscapeChar)

/-- `JSON.stringify({ error: v })` where `v` is a string or `undefined`:
stringify drops a property whose value is `undefined`, yielding `\x7b\x7d`;
a string value yields `\x7b"error":"<escaped>"\x7d`. -/
def stringifyErrorObj : Option String → String
  | none => "\x7b\x7d"
  | some m => "\x7b\"error\":\"" ++ jsonEscape m ++ "\"\x7d"

/-- The try block of `fetch` (`index.ts` lines 19-58), translated in source
order: parse the URL, construct the Crisp client, construct the Notion
client, then dispatch on method and pathname.  Returns the produced response
or the thrown error, together with the try-block interaction log. -/
def tryBlock (c : Collab) (request : Request) (env : Env) :
    Except JsErr Response × TryLog :=
  let url := request.url
  let crisp : CrispClient :=
    { token := env.CRISP_TOKEN, websiteId := env.CRISP_WEBSITE_ID }
  let notion : NotionClient := { auth := env.NOTION_TOKEN }
  if request.method = "OPTIONS" then
    (Except.ok
      { status := 200,
        headers := c.buildResponseCorsHeaders request.headers,
        body := none },
     { crispConstructed := true, notionConstructed := true,
       conductorCalls := 0, contactUsCalls := 0 })
  else if request.method = "POST" ∧ url.pathname = "/api/conductor" then
    (c.handleConductorContact
      { request := request, notion := notion,
        notionDatabaseId := env.NOTION_CONDUCTOR_DATABASE_ID },
     { crispConstructed := true, notionConstructed := true,
       conductorCalls := 1, contactUsCalls := 0 })
  else if request.method = "POST" ∧ url.pathname = "/api/contact-us" then
    (c.handleContactUs
      { request := request, crisp := crisp, notion := notion,
        notionDatabaseId := env.NOTION_CONTACT_US_DATABASE_ID },
     { crispConstructed := true, notionConstructed := true,
       conductorCalls := 0, contactUsCalls := 1 })
  else
    (Except.ok
      { status := 404,
        headers := c.buildResponseCorsHeaders request.headers ++
          [("contentType", "application/json")],
        body := some (stringifyErrorObj (some "not found")) },
     { crispConstructed := true, notionConstructed := true,
       conductorCalls := 0, contactUsCalls := 0 })

/-- The exported `fetch` handler of `index.ts`: construct the Toucan
error-reporting context (before the try block, so a throw there escapes the
handler as `Except.error`), then run the try block; a throw inside it is
caught, forwarded to `sentry.captureException` (recorded in `captured`), and
converted to the 500 JSON response with no headers. -/
def fetch (c : Collab) (request : Request) (env : Env) :
    Except JsErr (Response × FetchLog) :=
  match c.newToucan { dsn := env.SENTRY_DSN, request := request } with
  | Except.error e => Except.error e
  | Except.ok _ =>
    match (tryBlock c request env).1 with
    | Except.ok response =>
      Except.ok (response,
        { toTryLog := (tryBlock c request env).2, captured := [] })
    | Except.error e =>
      Except.ok
        ({ status := 500, headers := [],
           body := some (stringifyErrorObj e.message) },
         { toTryLog := (tryBlock c request env).2, captured := [e] })

/-- Whether the second character list starts with the first. -/
def listStartsWith : List Char → List Char → Bool
  | [], _ => true
  | _ :: _, [] => false
  | a :: as, b :: bs => a == b && listStartsWith as bs

/-- Whether the first character list occurs contiguously in the second. -/
def listOccurs (pat : List Char) : List Char → Bool
  | [] => listStartsWith pat []
  | b :: bs => listStartsWith pat (b :: bs) || listOccurs pat bs

/-- Whether a JSON text carries a quoted `error` key.  Stated from the
spec's words ("a JSON body with an `error` string field"), to compare the
spec's guarantee with the bodies the code actually produces. -/
def specErrorFieldPresent (body : String) : Bool :=
  listOccurs "\"error\"".data body.data

/-- Deterministic stub collaborators whose calls all succeed. -/
def stubOk : Collab :=
  { newToucan := fun _ => Except.ok (),
    buildResponseCorsHeaders := fun _ =>
      [("Access-Control-Allow-Origin", "*"),
       ("Access-Control-Allow-Methods", "POST, OPTIONS")],
    handleConductorContact := fun _ =>
      Except.ok { status := 200, headers := [], body := some "created" },
    handleContactUs := fun _ =>
      Except.ok { status := 200, headers := [], body := some "sent" } }

/-- Deterministic stubs whose route handlers throw errors with messages. -/
def stubThrow : Collab :=
  { stubOk with
    handleConductorContact := fun _ => Except.error { message := some "boom" },
    handleContactUs := fun _ => Except.error { message := some "Crisp call failed" } }

/-- Deterministic stubs whose route handlers throw a value that has no
`message` property. -/
def stubThrowNoMessage : Collab :=
  { stubOk with
    handleConductorContact := fun _ => Except.error { message := none },
    handleContactUs := fun _ => Except.error { message := none } }

/-- Deterministic stubs whose Toucan constructor itself throws. -/
def stubToucanThrow : Collab :=
  { stubOk with
    newToucan := fun _ => Except.error { message := some "toucan init failed" } }

/-- A concrete environment of opaque secrets. -/
def env0 : Env :=
  { SENTRY_DSN := "dsn-0", CRISP_TOKEN := "crisp-token-0",
    CRISP_WEBSITE_ID := "crisp-site-0", NOTION_TOKEN := "notion-token-0",
    NOTION_CONDUCTOR_DATABASE_ID := "db-conductor-0",
    NOTION_CONTACT_US_DATABASE_ID := "db-contact-us-0" }

/-- A concrete `POST /api/conductor` request (the spec's scenario body). -/
def conductorReq : Request :=
  { method := "POST",
    url := { pathname := "/api/conductor", search := "" },
    headers := [("Origin", "https://example.com")],
    body := "\x7b\"name\":\"Alice\",\"email\":\"a@example.com\"\x7d" }

/-- A concrete `POST /api/contact-us` request. -/
def contactUsReq : Request :=
  { method := "POST",
    url := { pathname := "/api/contact-us", search := "" },
    headers := [("Origin", "https://example.com")],
    body := "\x7b\"email\":\"a@example.com\"\x7d" }

/-- A concrete `GET /api/conductor` request (wrong method). -/
def getConductorReq : Request :=
  { method := "GET",
    url := { pathname := "/api/conductor", search := "" },
    headers := [("Origin", "https://example.com")],
    body := "" }

/-- A concrete CORS preflight request. -/
def optionsReq : Request :=
  { method := "OPTIONS",
    url := { pathname := "/api/contact-us", search := "" },
    headers := [("Origin", "https://example.com")],
    body := "" }

/-- C4: for every request with method OPTIONS (and a Toucan constructor that
does not throw), the response has status 200 (in the 2xx range), an empty
body, and exactly the computed CORS headers; nothing is captured. -/
theorem options_preflight (c : Collab) (request : Request) (env : Env)
    (ht : c.newToucan { dsn := env.SENTRY_DSN, request := request } = Except.ok ())
    (hm : request.method = "OPTIONS") :
    fetch c request env = Except.ok
      ({ status := 200,
         headers := c.buildResponseCorsHeaders request.headers,
         body := none },
       { toTryLog := (tryBlock c request env).2, captured := [] }) := by
  simp [fetch, tryBlock, ht, hm]

/-- Witness for `options_preflight` at a concrete preflight request. -/
theorem options_preflight_witness :
    fetch stubOk optionsReq env0 = Except.ok
      ({ status := 200,
         headers := [("Access-Control-Allow-Origin", "*"),
                     ("Access-Control-Allow-Methods", "POST, OPTIONS")],
         body := none },
       { crispConstructed := true, notionConstructed := true,
         conductorCalls := 0, contactUsCalls := 0, captured := [] }) :=
  options_preflight stubOk optionsReq env0 rfl rfl

/-- C9: the Toucan error-reporting context is constructed before the try
block, so if that construction throws, the exception escapes the handler
uncaught and no 500 response is produced. -/
theorem toucan_constructor_throw (c : Collab) (request : Request) (env : Env)
    (e : JsErr)
    (ht : c.newToucan { dsn := env.SENTRY_DSN, request := request } =
      Except.error e) :
    fetch c request env = Except.error e := by
  simp [fetch, ht]

/-- Witness for `toucan_constructor_throw` with a throwing constructor. -/
theorem toucan_constructor_throw_witness :
    fetch stubToucanThrow conductorReq env0 =
      Except.error { message := some "toucan init failed" } :=
  toucan_constructor_throw stubToucanThrow conductorReq env0
    { message := some "toucan init failed" } rfl

/-- C8: the handler is a deterministic function of its inputs — the source
`fetch` reads no module-level mutable state, so its embedding is a pure
function, and identical request and environment against the same
deterministic collaborators yield identical results. -/
theorem handler_deterministic (c : Collab) (request1 request2 : Request)
    (env1 env2 : Env) (hr : request1 = request2) (he : env1 = env2) :
    fetch c request1 env1 = fetch c request2 env2 := by
  subst hr
  subst he
  rfl

/-- Witness for `handler_deterministic` at a concrete invocation pair. -/
theorem handler_deterministic_witness :
    fetch stubOk conductorReq env0 = fetch stubOk conductorReq env0 :=
  handler_deterministic stubOk conductorReq conductorReq env0 env0 rfl rfl

/-- C1: with method POST the router dispatches by exact pathname match:
`/api/conductor` invokes `handleConductorContact` with the request, the
Notion client, and the conductor database id; `/api/contact-us` invokes
`handleContactUs` with the request, the Crisp client, the Notion client, and
the contact-us database id; in both cases a successful handler response is
returned unchanged (and nothing is captured). -/
theorem post_route_dispatch (c : Collab) (request : Request) (env : Env)
    (ht : c.newToucan { dsn := env.SENTRY_DSN, request := request } = Except.ok ())
    (hm : request.method = "POST") :
    (∀ r : Response,
      request.url.pathname = "/api/conductor" →
      c.handleConductorContact
        { request := request, notion := { auth := env.NOTION_TOKEN },
          notionDatabaseId := env.NOTION_CONDUCTOR_DATABASE_ID } = Except.ok r →
      fetch c request env = Except.ok (r,
        { crispConstructed := true, notionConstructed := true,
          conductorCalls := 1, contactUsCalls := 0, captured := [] })) ∧
    (∀ r : Response,
      request.url.pathname = "/api/contact-us" →
      c.handleContactUs
        { request := request,
          crisp := { token := env.CRISP_TOKEN, websiteId := env.CRISP_WEBSITE_ID },
          notion := { auth := env.NOTION_TOKEN },
          notionDatabaseId := env.NOTION_CONTACT_US_DATABASE_ID } = Except.ok r →
      fetch c request env = Except.ok (r,
        { crispConstructed := true, notionConstructed := true,
          conductorCalls := 0, contactUsCalls := 1, captured := [] })) := by
  constructor
  · intro r hp hok
    simp [fetch, tryBlock, ht, hm, hp, hok]
  · intro r hp hok
    simp [fetch, tryBlock, ht, hm, hp, hok]

/-- Witness for `post_route_dispatch` at concrete requests on both routes. -/
theorem post_route_dispatch_witness :
    (fetch stubOk conductorReq env0 = Except.ok
      ({ status := 200, headers := [], body := some "created" },
       { crispConstructed := true, notionConstructed := true,
         conductorCalls := 1, contactUsCalls := 0, captured := [] })) ∧
    (fetch stubOk contactUsReq env0 = Except.ok
      ({ status := 200, headers := [], body := some "sent" },
       { crispConstructed := true, notionConstructed := true,
         conductorCalls := 0, contactUsCalls := 1, captured := [] })) :=
  ⟨(post_route_dispatch stubOk conductorReq env0 rfl rfl).1
      { status := 200, headers := [], body := some "created" } rfl rfl,
   (post_route_dispatch stubOk contactUsReq env0 rfl rfl).2
      { status := 200, headers := [], body := some "sent" } rfl rfl⟩

/-- C2: for every request matching no declared route (not OPTIONS, not POST
`/api/conductor`, not POST `/api/contact-us`) the response has status exactly
404, body exactly the JSON text with error "not found", and headers that are
the computed CORS headers followed by the JSON content-type header (the
source spells its name `contentType`). -/
theorem unmatched_route_404 (c : Collab) (request : Request) (env : Env)
    (ht : c.newToucan { dsn := env.SENTRY_DSN, request := request } = Except.ok ())
    (h1 : request.method ≠ "OPTIONS")
    (h2 : ¬(request.method = "POST" ∧ request.url.pathname = "/api/conductor"))
    (h3 : ¬(request.method = "POST" ∧ request.url.pathname = "/api/contact-us")) :
    fetch c request env = Except.ok
      ({ status := 404,
         headers := c.buildResponseCorsHeaders request.headers ++
           [("contentType", "application/json")],
         body := some "\x7b\"error\":\"not found\"\x7d" },
       { crispConstructed := true, notionConstructed := true,
         conductorCalls := 0, contactUsCalls := 0, captured := [] }) := by
  have hbody : stringifyErrorObj (some "not found") =
      "\x7b\"error\":\"not found\"\x7d" := by decide
  simp [fetch, tryBlock, ht, h1, h2, h3, hbody]

/-- Witness for `unmatched_route_404` at `GET /api/conductor`. -/
theorem unmatched_route_404_witness :
    fetch stubOk getConductorReq env0 = Except.ok
      ({ status := 404,
         headers := [("Access-Control-Allow-Origin", "*"),
                     ("Access-Control-Allow-Methods", "POST, OPTIONS"),
                     ("contentType", "application/json")],
         body := some "\x7b\"error\":\"not found\"\x7d" },
       { crispConstructed := true, notionConstructed := true,
         conductorCalls := 0, contactUsCalls := 0, captured := [] }) :=
  unmatched_route_404 stubOk getConductorReq env0 rfl
    (by decide) (by decide) (by decide)

/-- C5: every error thrown inside the try block is forwarded to
`captureException` exactly once (`captured = [e]`) alongside the 500
response, and every non-throwing path — including the 404 routing miss —
captures nothing (`captured = []`); no error is swallowed or retried. -/
theorem error_capture_policy (c : Collab) (request : Request) (env : Env)
    (ht : c.newToucan { dsn := env.SENTRY_DSN, request := request } = Except.ok ()) :
    (∀ e : JsErr, (tryBlock c request env).1 = Except.error e →
      fetch c request env = Except.ok
        ({ status := 500, headers := [],
           body := some (stringifyErrorObj e.message) },
         { toTryLog := (tryBlock c request env).2, captured := [e] })) ∧
    (∀ r : Response, (tryBlock c request env).1 = Except.ok r →
      fetch c request env = Except.ok (r,
        { toTryLog := (tryBlock c request env).2, captured := [] })) := by
  constructor
  · intro e hE
    simp [fetch, ht, hE]
  · intro r hR
    simp [fetch, ht, hR]

/-- Witness for `error_capture_policy`: a throwing contact-us handler is
captured exactly once; the 404 miss path captures nothing. -/
theorem error_capture_policy_witness :
    (fetch stubThrow contactUsReq env0 = Except.ok
      ({ status := 500, headers := [],
         body := some (stringifyErrorObj (some "Crisp call failed")) },
       { crispConstructed := true, notionConstructed := true,
         conductorCalls := 0, contactUsCalls := 1,
         captured := [{ message := some "Crisp call failed" }] })) ∧
    (fetch stubThrow getConductorReq env0 = Except.ok
      ({ status := 404,
         headers := [("Access-Control-Allow-Origin", "*"),
                     ("Access-Control-Allow-Methods", "POST, OPTIONS"),
                     ("contentType", "application/json")],
         body := some (stringifyErrorObj (some "not found")) },
       { crispConstructed := true, notionConstructed := true,
         conductorCalls := 0, contactUsCalls := 0, captured := [] })) :=
  ⟨(error_capture_policy stubThrow contactUsReq env0 rfl).1
      { message := some "Crisp call failed" } rfl,
   (error_capture_policy stubThrow getConductorReq env0 rfl).2
      { status := 404,
        headers := [("Access-Control-Allow-Origin", "*"),
                    ("Access-Control-Allow-Methods", "POST, OPTIONS"),
                    ("contentType", "application/json")],
        body := some (stringifyErrorObj (some "not found")) } rfl⟩

/-- C3 counterexample: at a concrete `POST /api/conductor` whose handler
throws a value without a `message` property, the 500 body is the empty JSON
object — it carries no `error` field and no generic fallback message, so the
claim's "falling back to a generic message" and "always receives a JSON body
with an `error` string field" both fail at this input. -/
theorem error_translation_500_counterexample :
    fetch stubThrowNoMessage conductorReq env0 = Except.ok
      ({ status := 500, headers := [], body := some "\x7b\x7d" },
       { crispConstructed := true, notionConstructed := true,
         conductorCalls := 1, contactUsCalls := 0,
         captured := [{ message := none }] }) ∧
    specErrorFieldPresent "\x7b\x7d" = false := by
  exact ⟨rfl, by decide⟩

/-- C3 (amended): when any step in the try block throws, the handler returns
status 500 with body `JSON.stringify` of the object whose `error` property is
the thrown error's `message`: when a message is present the body is
`\x7b"error":"<message>"\x7d`, but when the error has no message the body is
the empty object `\x7b\x7d` with no `error` field — there is no
generic-message fallback. -/
theorem error_translation_500 (c : Collab) (request : Request) (env : Env)
    (e : JsErr)
    (ht : c.newToucan { dsn := env.SENTRY_DSN, request := request } = Except.ok ())
    (hE : (tryBlock c request env).1 = Except.error e) :
    fetch c request env = Except.ok
      ({ status := 500, headers := [],
         body := some (stringifyErrorObj e.message) },
       { toTryLog := (tryBlock c request env).2, captured := [e] }) ∧
    stringifyErrorObj none = "\x7b\x7d" ∧
    specErrorFieldPresent "\x7b\x7d" = false := by
  refine ⟨?_, rfl, by decide⟩
  simp [fetch, ht, hE]

/-- Witness for `error_translation_500` with a message-carrying throw. -/
theorem error_translation_500_witness :
    (fetch stubThrow conductorReq env0 = Except.ok
      ({ status := 500, headers := [],
         body := some (stringifyErrorObj (some "boom")) },
       { crispConstructed := true, notionConstructed := true,
         conductorCalls := 1, contactUsCalls := 0,
         captured := [{ message := some "boom" }] })) ∧
    stringifyErrorObj none = "\x7b\x7d" ∧
    specErrorFieldPresent "\x7b\x7d" = false :=
  error_translation_500 stubThrow conductorReq env0
    { message := some "boom" } rfl rfl

/-- C6: the 500 error path returns an empty header list — no CORS headers —
while the 404 miss path returns the computed CORS headers (followed by the
content-type entry): the observed CORS asymmetry between the two paths. -/
theorem cors_header_asymmetry (c : Collab) (request : Request) (env : Env)
    (ht : c.newToucan { dsn := env.SENTRY_DSN, request := request } = Except.ok ()) :
    (∀ e : JsErr, (tryBlock c request env).1 = Except.error e →
      fetch c request env = Except.ok
        ({ status := 500, headers := [],
           body := some (stringifyErrorObj e.message) },
         { toTryLog := (tryBlock c request env).2, captured := [e] })) ∧
    (request.method ≠ "OPTIONS" →
     ¬(request.method = "POST" ∧ request.url.pathname = "/api/conductor") →
     ¬(request.method = "POST" ∧ request.url.pathname = "/api/contact-us") →
      fetch c request env = Except.ok
        ({ status := 404,
           headers := c.buildResponseCorsHeaders request.headers ++
             [("contentType", "application/json")],
           body := some "\x7b\"error\":\"not found\"\x7d" },
         { crispConstructed := true, notionConstructed := true,
           conductorCalls := 0, contactUsCalls := 0, captured := [] })) := by
  have hbody : stringifyErrorObj (some "not found") =
      "\x7b\"error\":\"not found\"\x7d" := by decide
  constructor
  · intro e hE
    simp [fetch, ht, hE]
  · intro h1 h2 h3
    simp [fetch, tryBlock, ht, h1, h2, h3, hbody]

/-- Witness for `cors_header_asymmetry`: a throwing handler yields a 500
with no headers; a routing miss yields a 404 with the CORS headers. -/
theorem cors_header_asymmetry_witness :
    (fetch stubThrow conductorReq env0 = Except.ok
      ({ status := 500, headers := [],
         body := some (stringifyErrorObj (some "boom")) },
       { crispConstructed := true, notionConstructed := true,
         conductorCalls := 1, contactUsCalls := 0,
         captured := [{ message := some "boom" }] })) ∧
    (fetch stubThrow getConductorReq env0 = Except.ok
      ({ status := 404,
         headers := [("Access-Control-Allow-Origin", "*"),
                     ("Access-Control-Allow-Methods", "POST, OPTIONS"),
                     ("contentType", "application/json")],
         body := some "\x7b\"error\":\"not found\"\x7d" },
       { crispConstructed := true, notionConstructed := true,
         conductorCalls := 0, contactUsCalls := 0, captured := [] })) :=
  ⟨(cors_header_asymmetry stubThrow conductorReq env0 rfl).1
      { message := some "boom" } rfl,
   (cors_header_asymmetry stubThrow getConductorReq env0 rfl).2
      (by decide) (by decide) (by decide)⟩

/-- C7 counterexample: at a concrete OPTIONS request the invocation log
records `crispConstructed = true` and `notionConstructed = true` — both
integration clients were constructed before the method check — refuting the
claim that no client is constructed on the preflight path. -/
theorem preflight_constructs_clients_counterexample :
    fetch stubOk optionsReq env0 = Except.ok
      ({ status := 200,
         headers := [("Access-Control-Allow-Origin", "*"),
                     ("Access-Control-Allow-Methods", "POST, OPTIONS")],
         body := none },
       { crispConstructed := true, notionConstructed := true,
         conductorCalls := 0, contactUsCalls := 0, captured := [] }) := rfl

/-- C7 (amended): for every OPTIONS request the handler returns the CORS
preflight response and invokes no route handler or outbound call
(`conductorCalls = 0`, `contactUsCalls = 0`), but both integration clients
ARE constructed: construction happens unconditionally inside the try block,
before the method check, not only in a non-OPTIONS branch. -/
theorem preflight_no_route_dispatch (c : Collab) (request : Request)
    (env : Env)
    (ht : c.newToucan { dsn := env.SENTRY_DSN, request := request } = Except.ok ())
    (hm : request.method = "OPTIONS") :
    fetch c request env = Except.ok
      ({ status := 200,
         headers := c.buildResponseCorsHeaders request.headers,
         body := none },
       { crispConstructed := true, notionConstructed := true,
         conductorCalls := 0, contactUsCalls := 0, captured := [] }) := by
  simp [fetch, tryBlock, ht, hm]

/-- Witness for `preflight_no_route_dispatch` at an OPTIONS request against
the throwing stubs: even throwing handlers are never reached. -/
theorem preflight_no_route_dispatch_witness :
    fetch stubThrow
      { method := "OPTIONS",
        url := { pathname := "/api/conductor", search := "" },
        headers := [], body := "" } env0 = Except.ok
      ({ status := 200,
         headers := [("Access-Control-Allow-Origin", "*"),
                     ("Access-Control-Allow-Methods", "POST, OPTIONS")],
         body := none },
       { crispConstructed := true, notionConstructed := true,
         conductorCalls := 0, contactUsCalls := 0, captured := [] }) :=
  preflight_no_route_dispatch stubThrow
    { method := "OPTIONS",
      url := { pathname := "/api/conductor", search := "" },
      headers := [], body := "" } env0 rfl rfl

/-- C10: routing compares only the parsed URL's pathname and the method,
never the query string: a POST whose pathname is exactly `/api/conductor`
dispatches to the conductor handler for every query string, while a trailing
slash on the pathname, or any method other than POST (and OPTIONS), falls
through to the 404 branch. -/
theorem routing_pathname_only (c : Collab) (env : Env)
    (hdrs : List (String × String)) (body : String) :
    (∀ q : String,
      tryBlock c
        { method := "POST",
          url := { pathname := "/api/conductor", search := q },
          headers := hdrs, body := body } env =
      (c.handleConductorContact
        { request :=
            { method := "POST",
              url := { pathname := "/api/conductor", search := q },
              headers := hdrs, body := body },
          notion := { auth := env.NOTION_TOKEN },
          notionDatabaseId := env.NOTION_CONDUCTOR_DATABASE_ID },
       { crispConstructed := true, notionConstructed := true,
         conductorCalls := 1, contactUsCalls := 0 })) ∧
    (∀ q : String,
      (tryBlock c
        { method := "POST",
          url := { pathname := "/api/conductor/", search := q },
          headers := hdrs, body := body } env).1 =
      Except.ok
        { status := 404,
          headers := c.buildResponseCorsHeaders hdrs ++
            [("contentType", "application/json")],
          body := some "\x7b\"error\":\"not found\"\x7d" }) ∧
    (∀ m : String, m ≠ "POST" → m ≠ "OPTIONS" →
      (tryBlock c
        { method := m,
          url := { pathname := "/api/conductor", search := "" },
          headers := hdrs, body := body } env).1 =
      Except.ok
        { status := 404,
          headers := c.buildResponseCorsHeaders hdrs ++
            [("contentType", "application/json")],
          body := some "\x7b\"error\":\"not found\"\x7d" }) := by
  have hbody : stringifyErrorObj (some "not found") =
      "\x7b\"error\":\"not found\"\x7d" := by decide
  refine ⟨fun q => ?_, fun q => ?_, fun m hp ho => ?_⟩
  · simp [tryBlock]
  · simp [tryBlock, hbody]
  · simp [tryBlock, hbody, hp, ho]

/-- Witness for `routing_pathname_only`: a query string does not block
dispatch; a trailing slash or a GET method falls through to 404. -/
theorem routing_pathname_only_witness :
    (tryBlock stubOk
      { method := "POST",
        url := { pathname := "/api/conductor", search := "utm=1" },
        headers := [], body := "" } env0 =
      (Except.ok { status := 200, headers := [], body := some "created" },
       { crispConstructed := true, notionConstructed := true,
         conductorCalls := 1, contactUsCalls := 0 })) ∧
    ((tryBlock stubOk
      { method := "POST",
        url := { pathname := "/api/conductor/", search := "utm=1" },
        headers := [], body := "" } env0).1 =
      Except.ok
        { status := 404,
          headers := [("Access-Control-Allow-Origin", "*"),
                      ("Access-Control-Allow-Methods", "POST, OPTIONS"),
                      ("contentType", "application/json")],
          body := some "\x7b\"error\":\"not found\"\x7d" }) ∧
    ((tryBlock stubOk
      { method := "GET",
        url := { pathname := "/api/conductor", search := "" },
        headers := [], body := "" } env0).1 =
      Except.ok
        { status := 404,
          headers := [("Access-Control-Allow-Origin", "*"),
                      ("Access-Control-Allow-Methods", "POST, OPTIONS"),
                      ("contentType", "application/json")],
          body := some "\x7b\"error\":\"not found\"\x7d" }) :=
  ⟨(routing_pathname_only stubOk env0 [] "").1 "utm=1",
   (routing_pathname_only stubOk env0 [] "").2.1 "utm=1",
   (routing_pathname_only stubOk env0 [] "").2.2 "GET" (by decide) (by decide)⟩

end WebsiteHelperWorker
